import Mathlib

/-!
Verification of the renderer in src/lib/render.ts (asteroids-webgl).

The renderer is a thin immediate-mode draw layer over a single WebGL
program.  We embed it shallowly:

* GPU calls are recorded as a trace (`GLCall` list); a thrown JS
  exception is an `Option String` (the error message) alongside the
  trace of the calls issued before the throw.
* `gl.getAttribLocation` returns `-1` on failure and a location `≥ 0`
  otherwise, and `gl.getUniformLocation` returns `null` on failure;
  both are modelled by `Option ℕ` lookups in a `GLEnv`.
* JS numbers are modelled by `ℝ`; times from `Date.now()` by `ℤ`
  (milliseconds).
* The unbounded `for` loop in `polygon` is modelled with explicit fuel:
  running out of fuel while the loop guard still holds yields `none`.
* Canvas `clientWidth`/`clientHeight` of a canvas whose `width`/`height`
  attributes were just set (and which has no CSS sizing) equal those
  attributes; the DOM model below identifies them.
-/

/-- One call on the WebGL surface, as issued by render.ts. -/
inductive GLCall where
  | createBuffer : GLCall
  | bindBuffer : GLCall
  | bufferData (data : List ℝ) : GLCall
  | enableVertexAttribArray (loc : ℕ) : GLCall
  | vertexAttribPointer (loc size : ℕ) (normalized : Bool) : GLCall
  | uniform1f (loc : ℕ) (v : ℝ) : GLCall
  | uniform2fv (loc : ℕ) (v : List ℝ) : GLCall
  | uniform4fv (loc : ℕ) (v : List ℝ) : GLCall
  | uniformMatrix3fv (loc : ℕ) (transpose : Bool) (v : List ℝ) : GLCall
  | drawArrays (mode : ℕ) (first : ℕ) (count : ℝ) : GLCall
  | clearColorBuffer : GLCall
  | createShader (shaderType : ℕ) : GLCall
  | shaderSource (src : String) : GLCall
  | compileShader : GLCall
  | getShaderInfoLog : GLCall
  | deleteShader : GLCall
  | createProgram : GLCall
  | attachShader (h : ℕ) : GLCall
  | linkProgram : GLCall
  | getProgramInfoLog : GLCall
  | deleteProgram : GLCall

/-- The value of `gl.LINE_STRIP`. -/
def GL_LINE_STRIP : ℕ := 3

/-- Location lookups provided by the WebGL context for the linked
program: `attribLoc key = none` models `getAttribLocation` returning
`-1`, `uniformLoc key = none` models `getUniformLocation` returning
`null`. -/
structure GLEnv where
  attribLoc : String → Option ℕ
  uniformLoc : String → Option ℕ

/-- The `number | number[]` argument of the `uniform` helper. -/
inductive UniformValue where
  | scalar (x : ℝ) : UniformValue
  | arr (v : List ℝ) : UniformValue

/-- The `Wireframe` data structure consumed by the renderer. -/
structure Wireframe where
  bounds : ℝ
  color : List ℝ
  shape : List ℝ

/-- Result of a renderer routine: the GPU calls issued, and the thrown
error message if it threw. -/
abbrev GLResult := List GLCall × Option String

/-- Embedding of the module-level function `uniform` (render.ts
232-252): resolve the location, throw if `null`, otherwise dispatch on
`Array.isArray(value)` and `value.length` (the `switch` is successive
equality tests with a `default`). -/
def uniform (env : GLEnv) (key : String) (value : UniformValue) : GLResult :=
  match env.uniformLoc key with
  | none => ([], some ("Failed to get uniform location " ++ key))
  | some location =>
    match value with
    | UniformValue.arr v =>
      if v.length = 2 then ([GLCall.uniform2fv location v], none)
      else if v.length = 4 then ([GLCall.uniform4fv location v], none)
      else ([GLCall.uniformMatrix3fv location false v], none)
    | UniformValue.scalar x => ([GLCall.uniform1f location x], none)

/-- Embedding of the module-level function `attribute` (render.ts
219-230): `createBuffer`, then resolve the location and throw if it is
`-1` (`!~location`), then bind, upload, enable and point. -/
def bindAttribute (env : GLEnv) (key : String) (value : List ℝ) (size : ℕ) : GLResult :=
  match env.attribLoc key with
  | none => ([GLCall.createBuffer], some ("Failed to get attribute location " ++ key))
  | some location =>
    ([GLCall.createBuffer, GLCall.bindBuffer, GLCall.bufferData value,
      GLCall.enableVertexAttribArray location,
      GLCall.vertexAttribPointer location size false], none)

/-- Sequencing of two renderer routines with JS exception semantics:
if the first throws, the second never runs. -/
def glSeq (a b : GLResult) : GLResult :=
  match a.2 with
  | some e => (a.1, some e)
  | none => (a.1 ++ b.1, b.2)

/-- Embedding of `Render.draw` (render.ts 88-100): bind `a_vertex`,
upload the five uniforms, then `drawArrays(LINE_STRIP, 0,
shape.length / 2)` (JS real division). -/
noncomputable def draw (env : GLEnv) (aspectRatio : ℝ) (w : Wireframe) (position : List ℝ)
    (rotation size : ℝ) : GLResult :=
  glSeq (bindAttribute env "a_vertex" w.shape 2)
    (glSeq (uniform env "u_color" (UniformValue.arr w.color))
      (glSeq (uniform env "u_position" (UniformValue.arr position))
        (glSeq (uniform env "u_rotation" (UniformValue.scalar rotation))
          (glSeq (uniform env "u_size" (UniformValue.scalar size))
            (glSeq (uniform env "u_aspect_ratio" (UniformValue.scalar aspectRatio))
              ([GLCall.drawArrays GL_LINE_STRIP 0 ((w.shape.length : ℝ) / 2)], none))))))

/-- C1: for every `setUniform` call whose location lookup succeeds, the
GPU call issued is determined solely by the shape of the value: a
scalar routes to `uniform1f`, a 2-element array to `uniform2fv`, a
4-element array to `uniform4fv`, and an array of any other length to
`uniformMatrix3fv` with `transpose = false`. -/
theorem uniform_dispatch_by_value_shape (env : GLEnv) (key : String) (location : ℕ)
    (h : env.uniformLoc key = some location) :
    (∀ x : ℝ, uniform env key (UniformValue.scalar x) =
      ([GLCall.uniform1f location x], none)) ∧
    (∀ v : List ℝ, v.length = 2 → uniform env key (UniformValue.arr v) =
      ([GLCall.uniform2fv location v], none)) ∧
    (∀ v : List ℝ, v.length = 4 → uniform env key (UniformValue.arr v) =
      ([GLCall.uniform4fv location v], none)) ∧
    (∀ v : List ℝ, v.length ≠ 2 → v.length ≠ 4 → uniform env key (UniformValue.arr v) =
      ([GLCall.uniformMatrix3fv location false v], none)) := by
  refine ⟨fun x => ?_, fun v hv => ?_, fun v hv => ?_, fun v hv2 hv4 => ?_⟩ <;>
    simp [uniform, h, *]

/-- Witness for C1 at a concrete environment and concrete values of
each of the four shapes. -/
theorem uniform_dispatch_by_value_shape_witness :
    uniform ⟨fun _ => some 0, fun _ => some 7⟩ "u_rotation" (UniformValue.scalar 2) =
      ([GLCall.uniform1f 7 2], none) ∧
    uniform ⟨fun _ => some 0, fun _ => some 7⟩ "u_position" (UniformValue.arr [3, 4]) =
      ([GLCall.uniform2fv 7 [3, 4]], none) ∧
    uniform ⟨fun _ => some 0, fun _ => some 7⟩ "u_color" (UniformValue.arr [1, 0, 0, 1]) =
      ([GLCall.uniform4fv 7 [1, 0, 0, 1]], none) ∧
    uniform ⟨fun _ => some 0, fun _ => some 7⟩ "u_transform"
        (UniformValue.arr [1, 0, 0, 0, 1, 0, 0, 0, 1]) =
      ([GLCall.uniformMatrix3fv 7 false [1, 0, 0, 0, 1, 0, 0, 0, 1]], none) := by
  exact ⟨(uniform_dispatch_by_value_shape _ "u_rotation" 7 rfl).1 2,
    (uniform_dispatch_by_value_shape _ "u_position" 7 rfl).2.1 [3, 4] rfl,
    (uniform_dispatch_by_value_shape _ "u_color" 7 rfl).2.2.1 [1, 0, 0, 1] rfl,
    (uniform_dispatch_by_value_shape _ "u_transform" 7 rfl).2.2.2
      [1, 0, 0, 0, 1, 0, 0, 0, 1] (by decide) (by decide)⟩

theorem glSeq_mem {x : GLCall} {a b : GLResult} (h : x ∈ (glSeq a b).1) :
    x ∈ a.1 ∨ (a.2 = none ∧ x ∈ b.1) := by
  rcases a with ⟨t, o⟩
  cases o <;> simp_all [glSeq]

theorem glSeq_isSome (a b : GLResult) :
    (glSeq a b).2.isSome = (a.2.isSome || b.2.isSome) := by
  rcases a with ⟨t, o⟩
  cases o <;> simp [glSeq]

theorem uniform_no_drawArrays (env : GLEnv) (k : String) (v : UniformValue)
    (m f : ℕ) (c : ℝ) : GLCall.drawArrays m f c ∉ (uniform env k v).1 := by
  rcases h : env.uniformLoc k with _ | l
  · rcases v with x | xs <;> simp [uniform, h]
  · rcases v with x | xs
    · simp [uniform, h]
    · simp only [uniform, h]
      split_ifs <;> simp

theorem bindAttribute_no_drawArrays (env : GLEnv) (k : String) (v : List ℝ) (sz : ℕ)
    (m f : ℕ) (c : ℝ) : GLCall.drawArrays m f c ∉ (bindAttribute env k v sz).1 := by
  rcases h : env.attribLoc k with _ | l <;> simp [bindAttribute, h]

theorem uniform_snd_none {env : GLEnv} {k : String} (v : UniformValue)
    (h : env.uniformLoc k = none) :
    uniform env k v = ([], some ("Failed to get uniform location " ++ k)) := by
  rcases v with x | xs <;> simp [uniform, h]

theorem draw_isSome_eq (env : GLEnv) (aspect : ℝ) (w : Wireframe) (p : List ℝ)
    (rot sz : ℝ) :
    (draw env aspect w p rot sz).2.isSome =
      ((bindAttribute env "a_vertex" w.shape 2).2.isSome ||
       (uniform env "u_color" (UniformValue.arr w.color)).2.isSome ||
       (uniform env "u_position" (UniformValue.arr p)).2.isSome ||
       (uniform env "u_rotation" (UniformValue.scalar rot)).2.isSome ||
       (uniform env "u_size" (UniformValue.scalar sz)).2.isSome ||
       (uniform env "u_aspect_ratio" (UniformValue.scalar aspect)).2.isSome) := by
  simp [draw, glSeq_isSome, Bool.or_assoc]

/-- C4: binding an attribute whose name resolves to an invalid location
raises the attribute lookup error with only `createBuffer` issued (no
buffer bound, no data uploaded), and a `draw` call with any missing
attribute or uniform name throws and issues no `drawArrays` call. -/
theorem missing_lookup_raises_and_blocks_draw (env : GLEnv) (w : Wireframe)
    (position : List ℝ) (rotation size aspect : ℝ)
    (h : env.attribLoc "a_vertex" = none ∨ env.uniformLoc "u_color" = none ∨
      env.uniformLoc "u_position" = none ∨ env.uniformLoc "u_rotation" = none ∨
      env.uniformLoc "u_size" = none ∨ env.uniformLoc "u_aspect_ratio" = none) :
    (env.attribLoc "a_vertex" = none →
      bindAttribute env "a_vertex" w.shape 2 =
        ([GLCall.createBuffer],
         some ("Failed to get attribute location " ++ "a_vertex")) ∧
      GLCall.bindBuffer ∉ (bindAttribute env "a_vertex" w.shape 2).1 ∧
      (∀ v : List ℝ, GLCall.bufferData v ∉ (bindAttribute env "a_vertex" w.shape 2).1)) ∧
    (draw env aspect w position rotation size).2.isSome = true ∧
    (∀ (m f : ℕ) (c : ℝ),
      GLCall.drawArrays m f c ∉ (draw env aspect w position rotation size).1) := by
  refine ⟨fun ha => ?_, ?_, ?_⟩
  · simp [bindAttribute, ha]
  · rw [draw_isSome_eq]
    rcases h with h | h | h | h | h | h
    · simp [bindAttribute, h]
    all_goals simp [uniform_snd_none _ h]
  · intro m f c hmem
    rcases glSeq_mem hmem with h1 | ⟨ha2, hmem⟩
    · exact bindAttribute_no_drawArrays env _ w.shape 2 m f c h1
    rcases glSeq_mem hmem with h1 | ⟨hc2, hmem⟩
    · exact uniform_no_drawArrays env _ _ m f c h1
    rcases glSeq_mem hmem with h1 | ⟨hp2, hmem⟩
    · exact uniform_no_drawArrays env _ _ m f c h1
    rcases glSeq_mem hmem with h1 | ⟨hr2, hmem⟩
    · exact uniform_no_drawArrays env _ _ m f c h1
    rcases glSeq_mem hmem with h1 | ⟨hs2, hmem⟩
    · exact uniform_no_drawArrays env _ _ m f c h1
    rcases glSeq_mem hmem with h1 | ⟨haa2, hmem⟩
    · exact uniform_no_drawArrays env _ _ m f c h1
    rcases h with h | h | h | h | h | h
    · simp [bindAttribute, h] at ha2
    · simp [uniform_snd_none _ h] at hc2
    · simp [uniform_snd_none _ h] at hp2
    · simp [uniform_snd_none _ h] at hr2
    · simp [uniform_snd_none _ h] at hs2
    · simp [uniform_snd_none _ h] at haa2

/-- Witness for C4: an environment in which every lookup fails, applied
to a concrete wireframe and draw call. -/
theorem missing_lookup_raises_and_blocks_draw_witness :
    (GLEnv.attribLoc ⟨fun _ => none, fun _ => none⟩ "a_vertex" = none →
      bindAttribute ⟨fun _ => none, fun _ => none⟩ "a_vertex"
          (Wireframe.mk 0 [1, 1, 1, 1] [0, 0, 1, 1]).shape 2 =
        ([GLCall.createBuffer],
         some ("Failed to get attribute location " ++ "a_vertex")) ∧
      GLCall.bindBuffer ∉ (bindAttribute ⟨fun _ => none, fun _ => none⟩ "a_vertex"
          (Wireframe.mk 0 [1, 1, 1, 1] [0, 0, 1, 1]).shape 2).1 ∧
      (∀ v : List ℝ, GLCall.bufferData v ∉ (bindAttribute ⟨fun _ => none, fun _ => none⟩
          "a_vertex" (Wireframe.mk 0 [1, 1, 1, 1] [0, 0, 1, 1]).shape 2).1)) ∧
    (draw ⟨fun _ => none, fun _ => none⟩ 1 (Wireframe.mk 0 [1, 1, 1, 1] [0, 0, 1, 1])
        [0, 0] 0 1).2.isSome = true ∧
    (∀ (m f : ℕ) (c : ℝ), GLCall.drawArrays m f c ∉
      (draw ⟨fun _ => none, fun _ => none⟩ 1 (Wireframe.mk 0 [1, 1, 1, 1] [0, 0, 1, 1])
        [0, 0] 0 1).1) :=
  missing_lookup_raises_and_blocks_draw ⟨fun _ => none, fun _ => none⟩
    (Wireframe.mk 0 [1, 1, 1, 1] [0, 0, 1, 1]) [0, 0] 0 1 1 (Or.inl rfl)

/-- Embedding of the module-level function `compile` (render.ts
185-200): create, source, compile; on a false compile status fetch the
info log, delete the shader, and throw with the log in the message.
The `status` and `info` arguments model `getShaderParameter` and
`getShaderInfoLog` answers from the driver. -/
def compileShaderSrc (shaderType : ℕ) (source : String) (status : Bool)
    (info : String) : List GLCall × Except String Unit :=
  let pre := [GLCall.createShader shaderType, GLCall.shaderSource source,
    GLCall.compileShader]
  if status then (pre, Except.ok ())
  else (pre ++ [GLCall.getShaderInfoLog, GLCall.deleteShader],
    Except.error ("Failed to compile shader: " ++ info))

/-- Embedding of the module-level function `link` (render.ts 202-217):
create a program, attach every shader, link; on a false link status
fetch the info log, delete the program, and throw with the log. -/
def linkProgramSrc (shaders : List ℕ) (status : Bool) (info : String) :
    List GLCall × Except String Unit :=
  let pre := GLCall.createProgram :: (shaders.map GLCall.attachShader ++
    [GLCall.linkProgram])
  if status then (pre, Except.ok ())
  else (pre ++ [GLCall.getProgramInfoLog, GLCall.deleteProgram],
    Except.error ("Failed to link program: " ++ info))

/-- C6: when compilation (resp. link) status is false, `compile`
(resp. `link`) throws an error carrying the driver info log, and the
failed shader (resp. program) handle is deleted before the error is
raised — the delete call is the last call in the issued trace, so no
failed GPU handle outlives the error. -/
theorem failed_compile_link_delete_handle (shaderType : ℕ) (source info : String)
    (shaders : List ℕ) :
    compileShaderSrc shaderType source false info =
      ([GLCall.createShader shaderType, GLCall.shaderSource source,
        GLCall.compileShader, GLCall.getShaderInfoLog, GLCall.deleteShader],
       Except.error ("Failed to compile shader: " ++ info)) ∧
    (compileShaderSrc shaderType source false info).1.getLast? =
      some GLCall.deleteShader ∧
    linkProgramSrc shaders false info =
      (GLCall.createProgram :: (shaders.map GLCall.attachShader ++
        [GLCall.linkProgram, GLCall.getProgramInfoLog, GLCall.deleteProgram]),
       Except.error ("Failed to link program: " ++ info)) ∧
    (linkProgramSrc shaders false info).1.getLast? = some GLCall.deleteProgram := by
  have key : ∀ (l : List GLCall) (a : GLCall),
      (a :: (l ++ [GLCall.linkProgram, GLCall.getProgramInfoLog,
        GLCall.deleteProgram])).getLast? = some GLCall.deleteProgram := by
    intro l
    induction l with
    | nil => intro a; rfl
    | cons x xs ih =>
      intro a
      rw [List.cons_append, List.getLast?_cons_cons]
      exact ih x
  refine ⟨by simp [compileShaderSrc], by simp [compileShaderSrc], ?_, ?_⟩
  · simp [linkProgramSrc]
  · simpa [linkProgramSrc] using key (shaders.map GLCall.attachShader) GLCall.createProgram

theorem glSeq_mem_left {x : GLCall} {a b : GLResult} (h : x ∈ a.1) :
    x ∈ (glSeq a b).1 := by
  rcases a with ⟨t, o⟩
  cases o <;> simp_all [glSeq]

theorem glSeq_mem_right {x : GLCall} {a b : GLResult} (h2 : a.2 = none)
    (h : x ∈ b.1) : x ∈ (glSeq a b).1 := by
  rcases a with ⟨t, o⟩
  cases o <;> simp_all [glSeq]

theorem bindAttribute_snd_some {env : GLEnv} {k : String} {l : ℕ} (v : List ℝ) (sz : ℕ)
    (h : env.attribLoc k = some l) : (bindAttribute env k v sz).2 = none := by
  simp [bindAttribute, h]

theorem uniform_snd_some {env : GLEnv} {k : String} {l : ℕ} (v : UniformValue)
    (h : env.uniformLoc k = some l) : (uniform env k v).2 = none := by
  rcases v with x | xs
  · simp [uniform, h]
  · simp only [uniform, h]
    split_ifs <;> rfl

/-- Embedding of the wireframe built by `Render.line` (render.ts
135-145): two vertices at `±(cos(rotation)*aspectRatio,
sin(rotation))` and the color doubled. -/
noncomputable def lineWireframe (aspectRatio rotation : ℝ) (color : List ℝ) : Wireframe :=
  let c := Real.cos rotation * aspectRatio
  let s := Real.sin rotation
  { bounds := 0, color := color ++ color, shape := [-c, -s, c, s] }

/-- Embedding of `Render.line` (render.ts 135-150): build the ad-hoc
wireframe and draw it at `[x, y]` with the same rotation and size 1. -/
noncomputable def line (env : GLEnv) (aspectRatio x y rotation : ℝ)
    (color : List ℝ) : GLResult :=
  draw env aspectRatio (lineWireframe aspectRatio rotation color) [x, y] rotation 1

/-- C5: `line(0, 0, 0, [1,0,0,1])` produces a 2-vertex wireframe with
endpoints `(-aspectRatio, 0)` and `(aspectRatio, 0)`, the 4-element
color repeated once per endpoint (8 color entries), drawn with
size 1. -/
theorem line_origin_wireframe_spec (a : ℝ) (env : GLEnv) :
    lineWireframe a 0 [1, 0, 0, 1] =
      ⟨0, [1, 0, 0, 1, 1, 0, 0, 1], [-a, 0, a, 0]⟩ ∧
    (lineWireframe a 0 [1, 0, 0, 1]).shape.length = 2 * 2 ∧
    line env a 0 0 0 [1, 0, 0, 1] =
      draw env a ⟨0, [1, 0, 0, 1, 1, 0, 0, 1], [-a, 0, a, 0]⟩ [0, 0] 0 1 := by
  have hw : lineWireframe a 0 [1, 0, 0, 1] =
      ⟨0, [1, 0, 0, 1, 1, 0, 0, 1], [-a, 0, a, 0]⟩ := by
    simp [lineWireframe]
  refine ⟨hw, ?_, ?_⟩
  · rw [hw]
    rfl
  · rw [line, hw]

/-- C9: in every `line(x, y, rotation, color)` call, the rotation is
applied twice: it is baked into the two vertex coordinates uploaded by
`bufferData`, and it is also passed unchanged to `draw`, which uploads
it as the scalar `u_rotation` uniform. -/
theorem line_rotation_applied_twice (env : GLEnv) (a x y rot : ℝ) (color : List ℝ)
    (av uc up ur : ℕ)
    (ha : env.attribLoc "a_vertex" = some av)
    (hc : env.uniformLoc "u_color" = some uc)
    (hp : env.uniformLoc "u_position" = some up)
    (hr : env.uniformLoc "u_rotation" = some ur) :
    GLCall.bufferData [-(Real.cos rot * a), -(Real.sin rot),
      Real.cos rot * a, Real.sin rot] ∈ (line env a x y rot color).1 ∧
    GLCall.uniform1f ur rot ∈ (line env a x y rot color).1 := by
  constructor
  · apply glSeq_mem_left
    simp [bindAttribute, ha, lineWireframe]
  · apply glSeq_mem_right (bindAttribute_snd_some _ 2 ha)
    apply glSeq_mem_right (uniform_snd_some _ hc)
    apply glSeq_mem_right (uniform_snd_some _ hp)
    apply glSeq_mem_left
    simp [uniform, hr]

/-- Witness for C9 at a concrete environment, rotation 1 and aspect
ratio 2. -/
theorem line_rotation_applied_twice_witness :
    GLCall.bufferData [-(Real.cos 1 * 2), -(Real.sin 1),
      Real.cos 1 * 2, Real.sin 1] ∈
      (line ⟨fun _ => some 0, fun _ => some 5⟩ 2 3 4 1 [1, 0, 0, 1]).1 ∧
    GLCall.uniform1f 5 1 ∈
      (line ⟨fun _ => some 0, fun _ => some 5⟩ 2 3 4 1 [1, 0, 0, 1]).1 :=
  line_rotation_applied_twice ⟨fun _ => some 0, fun _ => some 5⟩ 2 3 4 1
    [1, 0, 0, 1] 0 5 5 5 rfl rfl rfl rfl

/-- Embedding of the `for` loop in `Render.polygon` (render.ts
159-163), with explicit fuel: while `r ≤ bound` holds, push the vertex
`(cos(r)*radius, sin(r)*radius)` onto the shape, append the color, and
advance `r` by `step`.  Running out of fuel while the guard still
holds yields `none` (the loop would still be running). -/
noncomputable def polygonLoop (radius : ℝ) (color : List ℝ) (step bound : ℝ) :
    ℕ → ℝ → Option (List ℝ × List ℝ)
  | 0, r => if r ≤ bound then none else some ([], [])
  | fuel + 1, r =>
    if r ≤ bound then
      (polygonLoop radius color step bound fuel (r + step)).map
        fun p => (Real.cos r * radius :: Real.sin r * radius :: p.1, color ++ p.2)
    else some ([], [])

/-- Embedding of `Render.polygon` building its wireframe (render.ts
152-163): the loop runs from `r = 0` with step `Math.PI * 2 / sides`
and inclusive bound `Math.PI * 2`. -/
noncomputable def polygonWireframe (radius sides : ℝ) (color : List ℝ) (fuel : ℕ) :
    Option Wireframe :=
  (polygonLoop radius color (Real.pi * 2 / sides) (Real.pi * 2) fuel 0).map
    fun p => { bounds := 0, color := p.2, shape := p.1 }

theorem polygonLoop_le {radius : ℝ} {color : List ℝ} {step bound r : ℝ}
    (h : r ≤ bound) (fuel : ℕ) :
    polygonLoop radius color step bound (fuel + 1) r =
      (polygonLoop radius color step bound fuel (r + step)).map
        fun p => (Real.cos r * radius :: Real.sin r * radius :: p.1, color ++ p.2) := by
  simp [polygonLoop, h]

theorem polygonLoop_gt {radius : ℝ} {color : List ℝ} {step bound r : ℝ}
    (h : bound < r) (fuel : ℕ) :
    polygonLoop radius color step bound fuel r = some ([], []) := by
  cases fuel <;> simp [polygonLoop, not_le.mpr h]

theorem polygonLoop_isSome (radius : ℝ) (color : List ℝ) (step bound : ℝ)
    (fuel : ℕ) : ∀ r : ℝ, bound < r + fuel * step →
    (polygonLoop radius color step bound fuel r).isSome = true := by
  induction fuel with
  | zero =>
    intro r h
    have h2 : bound < r := by simpa using h
    simp [polygonLoop, not_le.mpr h2]
  | succ n ih =>
    intro r h
    by_cases hr : r ≤ bound
    · rw [polygonLoop_le hr]
      have hrec := ih (r + step) (by push_cast at h ⊢; linarith)
      rcases Option.isSome_iff_exists.mp hrec with ⟨p, hp⟩
      simp [hp]
    · simp [polygonLoop, hr]

theorem polygonLoop_square_eval (f : ℕ) :
    polygonLoop 1 [1, 1, 1, 1] (Real.pi * 2 / 4) (Real.pi * 2) (f + 5) 0 =
      some ([Real.cos 0 * 1, Real.sin 0 * 1,
        Real.cos (0 + Real.pi * 2 / 4) * 1,
        Real.sin (0 + Real.pi * 2 / 4) * 1,
        Real.cos (0 + Real.pi * 2 / 4 + Real.pi * 2 / 4) * 1,
        Real.sin (0 + Real.pi * 2 / 4 + Real.pi * 2 / 4) * 1,
        Real.cos (0 + Real.pi * 2 / 4 + Real.pi * 2 / 4 + Real.pi * 2 / 4) * 1,
        Real.sin (0 + Real.pi * 2 / 4 + Real.pi * 2 / 4 + Real.pi * 2 / 4) * 1,
        Real.cos (0 + Real.pi * 2 / 4 + Real.pi * 2 / 4 + Real.pi * 2 / 4 +
          Real.pi * 2 / 4) * 1,
        Real.sin (0 + Real.pi * 2 / 4 + Real.pi * 2 / 4 + Real.pi * 2 / 4 +
          Real.pi * 2 / 4) * 1],
       [1, 1, 1, 1, 1, 1, 1, 1, 1, 1, 1, 1, 1, 1, 1, 1, 1, 1, 1, 1]) := by
  have hπ := Real.pi_pos
  have h0 : (0 : ℝ) ≤ Real.pi * 2 := by linarith
  have h1 : (0 : ℝ) + Real.pi * 2 / 4 ≤ Real.pi * 2 := by linarith
  have h2 : (0 : ℝ) + Real.pi * 2 / 4 + Real.pi * 2 / 4 ≤ Real.pi * 2 := by linarith
  have h3 : (0 : ℝ) + Real.pi * 2 / 4 + Real.pi * 2 / 4 + Real.pi * 2 / 4 ≤
      Real.pi * 2 := by linarith
  have h4 : (0 : ℝ) + Real.pi * 2 / 4 + Real.pi * 2 / 4 + Real.pi * 2 / 4 +
      Real.pi * 2 / 4 ≤ Real.pi * 2 := by linarith
  have h5 : Real.pi * 2 < 0 + Real.pi * 2 / 4 + Real.pi * 2 / 4 + Real.pi * 2 / 4 +
      Real.pi * 2 / 4 + Real.pi * 2 / 4 := by linarith
  rw [(by omega : f + 5 = f + 4 + 1), polygonLoop_le h0,
    (by omega : f + 4 = f + 3 + 1), polygonLoop_le h1,
    (by omega : f + 3 = f + 2 + 1), polygonLoop_le h2,
    (by omega : f + 2 = f + 1 + 1), polygonLoop_le h3,
    polygonLoop_le h4, polygonLoop_gt h5]
  simp

/-- C3: `polygon(radius = 1, sides = 4, position = [0,0], rotation = 0,
color = [1,1,1,1])` builds a wireframe with `sides + 1 = 5` vertices
(the inclusive `[0, 2π]` loop produces a closing vertex), every vertex
at distance `radius = 1` from the origin, and every vertex colored
with the given color. -/
theorem polygon_square_wireframe_spec (fuel : ℕ) (h : 5 ≤ fuel) :
    ∃ w : Wireframe, polygonWireframe 1 4 [1, 1, 1, 1] fuel = some w ∧
      w.shape.length = 2 * (4 + 1) ∧
      (∀ i : ℕ, 2 * i + 1 < w.shape.length →
        w.shape.getD (2 * i) 0 ^ 2 + w.shape.getD (2 * i + 1) 0 ^ 2 = 1) ∧
      w.color = [1, 1, 1, 1] ++ [1, 1, 1, 1] ++ [1, 1, 1, 1] ++ [1, 1, 1, 1] ++
        [1, 1, 1, 1] := by
  obtain ⟨f, rfl⟩ : ∃ f, fuel = f + 5 := ⟨fuel - 5, by omega⟩
  rw [polygonWireframe, polygonLoop_square_eval]
  refine ⟨_, rfl, rfl, ?_, by simp⟩
  intro i hi
  have hi5 : i < 5 := by
    simp only [List.length] at hi
    omega
  interval_cases i <;>
    simp [List.getD, Real.cos_sq_add_sin_sq]

/-- Witness for C3 at the minimal sufficient fuel. -/
theorem polygon_square_wireframe_spec_witness :
    ∃ w : Wireframe, polygonWireframe 1 4 [1, 1, 1, 1] 5 = some w ∧
      w.shape.length = 2 * (4 + 1) ∧
      (∀ i : ℕ, 2 * i + 1 < w.shape.length →
        w.shape.getD (2 * i) 0 ^ 2 + w.shape.getD (2 * i + 1) 0 ^ 2 = 1) ∧
      w.color = [1, 1, 1, 1] ++ [1, 1, 1, 1] ++ [1, 1, 1, 1] ++ [1, 1, 1, 1] ++
        [1, 1, 1, 1] :=
  polygon_square_wireframe_spec 5 (by norm_num)

/-- C10: for `sides ≥ 1` the angle-sampling loop of `polygon`
terminates: the step `2π/sides` is strictly positive, each iteration
strictly increases the loop variable, and some finite fuel completes
the loop. -/
theorem polygon_loop_terminates_pos_sides (sides : ℕ) (radius : ℝ)
    (color : List ℝ) (h : 1 ≤ sides) :
    0 < Real.pi * 2 / (sides : ℝ) ∧
    (∀ r : ℝ, r < r + Real.pi * 2 / (sides : ℝ)) ∧
    ∃ fuel : ℕ, (polygonLoop radius color (Real.pi * 2 / (sides : ℝ))
      (Real.pi * 2) fuel 0).isSome = true := by
  have hπ := Real.pi_pos
  have hn : (0 : ℝ) < (sides : ℝ) := by
    exact_mod_cast Nat.lt_of_lt_of_le Nat.zero_lt_one h
  have hstep : 0 < Real.pi * 2 / (sides : ℝ) := div_pos (by linarith) hn
  refine ⟨hstep, fun r => by linarith, sides + 1, polygonLoop_isSome _ _ _ _ _ _ ?_⟩
  have key : ((sides : ℝ) + 1) * (Real.pi * 2 / (sides : ℝ)) =
      Real.pi * 2 + Real.pi * 2 / (sides : ℝ) := by
    field_simp
    ring
  push_cast
  rw [key]
  linarith

/-- Witness for C10 at `sides = 4`. -/
theorem polygon_loop_terminates_pos_sides_witness :
    0 < Real.pi * 2 / ((4 : ℕ) : ℝ) ∧
    (∀ r : ℝ, r < r + Real.pi * 2 / ((4 : ℕ) : ℝ)) ∧
    ∃ fuel : ℕ, (polygonLoop 1 [1, 1, 1, 1] (Real.pi * 2 / ((4 : ℕ) : ℝ))
      (Real.pi * 2) fuel 0).isSome = true :=
  polygon_loop_terminates_pos_sides 4 1 [1, 1, 1, 1] (by norm_num)

/-- The FPS sample window of the renderer (render.ts 11-15, 34-38). -/
structure FPS where
  count : ℕ
  rate : ℕ
  last : ℤ
deriving DecidableEq

/-- Embedding of the FPS part of `Render.clear` (render.ts 60-69),
with `Date.now()` passed in as `now`: if less than 1000ms have elapsed
since the last reset the frame counter is incremented; otherwise
`rate := count / 1`, the counter resets to 0 and the reset timestamp
becomes `now`. -/
def clearFps (now : ℤ) (f : FPS) : FPS :=
  if now - f.last < 1000 then { f with count := f.count + 1 }
  else { count := 0, rate := f.count / 1, last := now }

/-- A frame-loop event: a `clear()` call at a given `Date.now()` time,
or a `draw()` call (which never touches the FPS state). -/
inductive Ev where
  | clear (now : ℤ) : Ev
  | draw : Ev
deriving DecidableEq

/-- Run a sequence of frame-loop events against the FPS state. -/
def runEvents : List Ev → FPS → FPS
  | [], f => f
  | Ev.clear t :: es, f => runEvents es (clearFps t f)
  | Ev.draw :: es, f => runEvents es f

/-- Number of `draw()` calls in an event sequence. -/
def countDraws : List Ev → ℕ
  | [] => 0
  | Ev.clear _ :: es => countDraws es
  | Ev.draw :: es => countDraws es + 1

/-- Number of `clear()` calls in an event sequence. -/
def countClears : List Ev → ℕ
  | [] => 0
  | Ev.clear _ :: es => countClears es + 1
  | Ev.draw :: es => countClears es

/-- Whether an event happens strictly inside the 1000ms window opened
at `t0` (draws are unconstrained: they never touch the FPS state). -/
def preWindow (t0 : ℤ) : Ev → Bool
  | Ev.clear t => decide (t - t0 < 1000)
  | Ev.draw => true

/-- C2 counterexample: three `clear()` calls at 100ms, 200ms and
1000ms after a reset at time 0, with zero intervening draws.  The
boundary `clear()` sets `fps.rate` to 2 (the number of sub-window
`clear()` calls), not to the number of intervening draws, which is
0. -/
theorem fps_rate_ignores_draw_count :
    countDraws [Ev.clear 100, Ev.clear 200, Ev.clear 1000] = 0 ∧
    (1000 : ℤ) - 0 ≥ 1000 ∧
    runEvents [Ev.clear 100, Ev.clear 200, Ev.clear 1000] ⟨0, 0, 0⟩ = ⟨0, 2, 1000⟩ ∧
    (runEvents [Ev.clear 100, Ev.clear 200, Ev.clear 1000] ⟨0, 0, 0⟩).rate ≠
      countDraws [Ev.clear 100, Ev.clear 200, Ev.clear 1000] := by
  decide

/-- C2 (amended): over a window opened at `t0` with the counter at
`c`, every `clear()` at which less than 1000ms have elapsed increments
`fps.count`, and the first `clear()` at which at least 1000ms have
elapsed sets `fps.rate` to the number of `clear()` calls since the
reset (independent of intervening draws), resets `fps.count` to 0 and
the reset timestamp to the current time. -/
theorem fps_window_records_clear_count (es : List Ev) (t0 T : ℤ) (c r : ℕ)
    (hpre : ∀ e ∈ es, preWindow t0 e = true) (hT : 1000 ≤ T - t0) :
    runEvents (es ++ [Ev.clear T]) ⟨c, r, t0⟩ = ⟨0, c + countClears es, T⟩ := by
  induction es generalizing c r with
  | nil =>
    simp [runEvents, clearFps, not_lt.mpr hT, countClears]
  | cons e es ih =>
    cases e with
    | clear t =>
      have ht : t - t0 < 1000 := by
        have hm := hpre (Ev.clear t) (by simp)
        simpa [preWindow] using hm
      have hstep : clearFps t ⟨c, r, t0⟩ = ⟨c + 1, r, t0⟩ := by
        simp [clearFps, ht]
      rw [List.cons_append]
      show runEvents (es ++ [Ev.clear T]) (clearFps t ⟨c, r, t0⟩) = _
      rw [hstep, ih (c + 1) r (fun e he => hpre e (by simp [he]))]
      simp [countClears, FPS.mk.injEq]
      omega
    | draw =>
      rw [List.cons_append]
      show runEvents (es ++ [Ev.clear T]) ⟨c, r, t0⟩ = _
      rw [ih c r (fun e he => hpre e (by simp [he]))]
      simp [countClears]

/-- Witness for the amended C2: two sub-window clears with one draw in
between, then the boundary clear at 1500ms. -/
theorem fps_window_records_clear_count_witness :
    runEvents ([Ev.clear 100, Ev.draw, Ev.clear 200] ++ [Ev.clear 1500]) ⟨0, 0, 0⟩ =
      ⟨0, 0 + countClears [Ev.clear 100, Ev.draw, Ev.clear 200], 1500⟩ :=
  fps_window_records_clear_count [Ev.clear 100, Ev.draw, Ev.clear 200] 0 1500 0 0
    (by decide) (by decide)

/-- Renderer-owned state (render.ts 6-21): the pixel
dimensions (which double as their client dimensions, see the module
docstring), the GL viewport, the aspect ratio (source field
`aspect_ratio`), the FPS window and the debug flag. -/
structure RState where
  gameWidth : ℝ
  gameHeight : ℝ
  textWidth : ℝ
  textHeight : ℝ
  viewport : ℝ × ℝ × ℝ × ℝ
  aspectRatio : ℝ
  fps : FPS
  debug : Bool

/-- Embedding of `Render.resize` (render.ts 170-177): both canvases
take the client size of the document body, the viewport is reset to the
full GPU canvas, and the aspect ratio becomes
`clientWidth / clientHeight`. -/
noncomputable def resize (bodyWidth bodyHeight : ℝ) (s : RState) : RState :=
  { s with
    gameWidth := bodyWidth, textWidth := bodyWidth,
    gameHeight := bodyHeight, textHeight := bodyHeight,
    viewport := (0, 0, bodyWidth, bodyHeight),
    aspectRatio := bodyWidth / bodyHeight }

/-- The state effect of `Render.clear` (render.ts 60-78): only the FPS
window changes; the GL clear and the 2D `clearRect` touch no renderer
state. -/
def clearState (now : ℤ) (s : RState) : RState :=
  { s with fps := clearFps now s.fps }

/-- `Render.draw` as a state transformer: it reads the aspect ratio
and emits GPU calls, and writes no renderer state. -/
noncomputable def drawOp (env : GLEnv) (s : RState) (w : Wireframe)
    (position : List ℝ) (rotation size : ℝ) : GLResult × RState :=
  (draw env s.aspectRatio w position rotation size, s)

/-- `Render.line` as a state transformer. -/
noncomputable def lineOp (env : GLEnv) (s : RState) (x y rotation : ℝ)
    (color : List ℝ) : GLResult × RState :=
  (line env s.aspectRatio x y rotation color, s)

/-- `Render.polygon` as a state transformer (`none` when the given
fuel does not cover the loop). -/
noncomputable def polygonOp (env : GLEnv) (s : RState) (radius sides : ℝ)
    (position : List ℝ) (rotation : ℝ) (color : List ℝ) (fuel : ℕ) :
    Option GLResult × RState :=
  ((polygonWireframe radius sides color fuel).map
    fun w => draw env s.aspectRatio w position rotation 1, s)

/-- The `Body` entity consumed by `Render.drawBody`. -/
structure Body where
  wireframe : Wireframe
  position : List ℝ
  rotation : ℝ
  size : ℝ
  velocity : List ℝ

/-- `Render.drawBody` (render.ts 102-118) as a state transformer: the
main draw, plus the 8-sided green bounding polygon when the debug flag
is set (the `_text` overlay writes no renderer state either). -/
noncomputable def drawBodyOp (env : GLEnv) (s : RState) (b : Body) (fuel : ℕ) :
    (GLResult × Option GLResult) × RState :=
  ((draw env s.aspectRatio b.wireframe b.position b.rotation b.size,
    if s.debug then
      (polygonWireframe b.wireframe.bounds 8 [0, 1, 0, 1] fuel).map
        fun w => draw env s.aspectRatio w b.position b.rotation 1
    else none), s)

/-- Embedding of the `Render` constructor tail (render.ts 23-58): the
FPS window starts as `{count 0, rate 0, last now}`, debug is off, and
`resize()` runs before the constructor returns.  Fields the source
leaves undefined before that first `resize()` are initialised to 0
here; `resize` overwrites every one of them. -/
noncomputable def construct (bodyWidth bodyHeight : ℝ) (now : ℤ) : RState :=
  resize bodyWidth bodyHeight
    { gameWidth := 0, gameHeight := 0, textWidth := 0, textHeight := 0,
      viewport := (0, 0, 0, 0), aspectRatio := 0,
      fps := { count := 0, rate := 0, last := now }, debug := false }

/-- C7: `resize()` is idempotent while the client size of the document body
is unchanged: a second `resize()` yields the identical state (aspect
ratio, canvas pixel dimensions and viewport included). -/
theorem resize_idempotent (bodyWidth bodyHeight : ℝ) (s : RState) :
    resize bodyWidth bodyHeight (resize bodyWidth bodyHeight s) =
      resize bodyWidth bodyHeight s := rfl

/-- C8: after construction and after every `resize()`, the aspect
ratio equals `clientWidth / clientHeight` of the GPU canvas and both
canvases share identical pixel dimensions; no other renderer operation
(`clear`, `draw`, `line`, `polygon`, `drawBody`) changes the aspect
ratio or the canvas dimensions. -/
theorem aspect_and_canvas_invariant (bw bh : ℝ) (now t : ℤ) (s : RState)
    (env : GLEnv) (w : Wireframe) (p : List ℝ) (rot sz x y radius sides : ℝ)
    (color : List ℝ) (b : Body) (fuel : ℕ) :
    ((construct bw bh now).aspectRatio =
        (construct bw bh now).gameWidth / (construct bw bh now).gameHeight ∧
      (construct bw bh now).gameWidth = (construct bw bh now).textWidth ∧
      (construct bw bh now).gameHeight = (construct bw bh now).textHeight) ∧
    ((resize bw bh s).aspectRatio =
        (resize bw bh s).gameWidth / (resize bw bh s).gameHeight ∧
      (resize bw bh s).gameWidth = (resize bw bh s).textWidth ∧
      (resize bw bh s).gameHeight = (resize bw bh s).textHeight) ∧
    ((clearState t s).aspectRatio = s.aspectRatio ∧
      (clearState t s).gameWidth = s.gameWidth ∧
      (clearState t s).gameHeight = s.gameHeight ∧
      (clearState t s).textWidth = s.textWidth ∧
      (clearState t s).textHeight = s.textHeight) ∧
    (drawOp env s w p rot sz).2 = s ∧
    (lineOp env s x y rot color).2 = s ∧
    (polygonOp env s radius sides p rot color fuel).2 = s ∧
    (drawBodyOp env s b fuel).2 = s :=
  ⟨⟨rfl, rfl, rfl⟩, ⟨rfl, rfl, rfl⟩, ⟨rfl, rfl, rfl, rfl, rfl⟩, rfl, rfl, rfl, rfl⟩
